import Mathlib

/-!
Shallow embedding of `src/crates/batcher/src/proposals_manager.rs`
(the proposal-generation coordinator of the sequencer's batcher).

The embedding follows the Rust source function by function:
* `set_active_proposal`        — lines 207-220
* `active_proposal_finished`   — lines 222-225
* `feed_more_mempool_txs`      — lines 188-203
* `build_proposal_loop`        — lines 151-186
* `generate_block_proposal`    — lines 115-149
* `ProposalsManager.new`       — lines 97-109

Asynchrony is resolved by an explicit environment schedule: the mempool is a
sequence of per-call behaviors (one per `get_txs` call that wins the
`select!` race before the builder completes), and the relay channel is a
state recording the transactions delivered to the builder's input stream
plus how many more sends the receiver side will accept before it is dropped
(`none` = the receiver stays alive).  The builder's `build_block` future is
opaque; its eventual boolean is a parameter, and the moment it wins the race
is the point where the schedule list of feed steps runs out.
-/

namespace Sequencer

/-- Caller-supplied proposal identifier (`pub type ProposalId = u64`). -/
abbrev ProposalId := Nat

/-- Executable transactions are opaque to the coordinator; modelled by `Nat`. -/
abbrev Transaction := Nat

/-- Opaque error produced by the external mempool client. -/
structure MempoolClientError where
  code : Nat
deriving DecidableEq, Repr

/-- `ProposalsManagerError` (lines 55-69 of the source). -/
inductive ProposalsManagerError where
  | AlreadyGeneratingProposal
      (current_generating_proposal_id : ProposalId)
      (new_proposal_id : ProposalId)
  | InternalError
  | MempoolError (e : MempoolClientError)
deriving DecidableEq, Repr

/-- `pub type ProposalsManagerResult<T> = Result<T, ProposalsManagerError>`. -/
abbrev ProposalsManagerResult (T : Type) := Except ProposalsManagerError T

/-- `ProposalsManagerConfig` (lines 23-27): two numeric options, `usize`. -/
structure ProposalsManagerConfig where
  max_txs_per_mempool_request : Nat
  outstream_content_buffer_size : Nat
deriving DecidableEq, Repr

/-- `impl Default for ProposalsManagerConfig` (lines 29-34). -/
def ProposalsManagerConfig.default : ProposalsManagerConfig :=
  { max_txs_per_mempool_request := 10, outstream_content_buffer_size := 100 }

/-- The coordinator state relevant to the claims: the stored configuration and
the active-proposal slot (`active_proposal: Arc<Mutex<Option<ProposalId>>>`).
The mempool client, factory and join handle are external handles; what flows
through them is captured by the outcome records below. -/
structure ProposalsManager where
  config : ProposalsManagerConfig
  active_proposal : Option ProposalId
deriving DecidableEq, Repr

/-- `ProposalsManager::new` (lines 97-109): stores the given configuration
verbatim and initializes the active-proposal slot to `None`.  No validation
of the configuration values is performed. -/
def ProposalsManager.new (config : ProposalsManagerConfig) : ProposalsManager :=
  { config := config, active_proposal := none }

/-- `set_active_proposal` (lines 207-220): under the slot lock, if the slot
already holds `active`, fail with `AlreadyGeneratingProposal` carrying both
identifiers and leave the slot unchanged; otherwise store `proposal_id`.
Returns the result together with the slot contents after the call. -/
def set_active_proposal (slot : Option ProposalId) (proposal_id : ProposalId) :
    ProposalsManagerResult Unit × Option ProposalId :=
  match slot with
  | some active =>
      (Except.error
        (ProposalsManagerError.AlreadyGeneratingProposal active proposal_id),
       some active)
  | none => (Except.ok (), some proposal_id)

/-- `active_proposal_finished` (lines 222-225): unconditionally clears the
slot (`*proposal_id = None`), whatever it held. -/
def active_proposal_finished (_active : Option ProposalId) : Option ProposalId :=
  none

/-- State of the relay channel (`tokio::sync::mpsc::channel<Transaction>`)
as seen from the sending side.  `sent` is the ordered sequence of
transactions accepted so far (delivered, in FIFO order, to the builder's
input stream).  `openFor` is the environment's behavior of the receiving
side: `none` means the receiver is never dropped, `some k` means it accepts
exactly `k` more sends and then every send fails (receiver dropped).
Capacity only delays sends (backpressure); it never changes the delivered
sequence, so it is not part of this state. -/
structure ChannelState where
  sent : List Transaction
  openFor : Option Nat
deriving DecidableEq, Repr

/-- One `mempool_tx_sender.send(tx).await`: succeeds and appends to the
delivered sequence while the receiver is alive, fails once it is dropped. -/
def ChannelState.send (ch : ChannelState) (tx : Transaction) :
    Option ChannelState :=
  match ch.openFor with
  | none => some { ch with sent := ch.sent ++ [tx] }
  | some 0 => none
  | some (k + 1) => some { sent := ch.sent ++ [tx], openFor := some k }

/-- The `for tx in mempool_txs` loop of `feed_more_mempool_txs`
(lines 195-201): push each transaction in order; on the first failed send,
stop and return `InternalError` (the `?` operator aborts the loop), leaving
the remaining transactions of the batch unsent. -/
def sendAll (ch : ChannelState) : List Transaction →
    ProposalsManagerResult Unit × ChannelState
  | [] => (Except.ok (), ch)
  | tx :: rest =>
      match ch.send tx with
      | none => (Except.error ProposalsManagerError.InternalError, ch)
      | some ch' => sendAll ch' rest

/-- Result of one `mempool_client.get_txs(..)` call, decided by the
environment as a function of the requested count. -/
abbrev MempoolPull := Nat → Except MempoolClientError (List Transaction)

/-- `feed_more_mempool_txs` (lines 188-203): call `get_txs` with
`max_txs_per_mempool_request`; a mempool failure is wrapped by the `?`
operator into `MempoolError`; otherwise relay the batch in order onto the
channel. -/
def feed_more_mempool_txs (pull : MempoolPull) (max_txs_per_mempool_request : Nat)
    (ch : ChannelState) : ProposalsManagerResult Unit × ChannelState :=
  match pull max_txs_per_mempool_request with
  | Except.error e => (Except.error (ProposalsManagerError.MempoolError e), ch)
  | Except.ok txs => sendAll ch txs

/-- The `loop { select! { .. } }` body of `build_proposal_loop`
(lines 163-183).  `pulls` lists, in order, the behaviors of the `get_txs`
calls that win the race before the builder's future completes; when the list
is exhausted the builder branch wins with `builder_done`.  Each feed step
logs the count it requested from the mempool.  A feed-step error breaks the
loop immediately with that error; remaining scheduled steps never run. -/
def build_proposal_loop_go (max_txs_per_mempool_request : Nat)
    (builder_done : Bool) :
    List MempoolPull → ChannelState → List Nat →
    ProposalsManagerResult Bool × ChannelState × List Nat
  | [], ch, log => (Except.ok builder_done, ch, log)
  | pull :: rest, ch, log =>
      match feed_more_mempool_txs pull max_txs_per_mempool_request ch with
      | (Except.error e, ch') =>
          (Except.error e, ch', log ++ [max_txs_per_mempool_request])
      | (Except.ok _, ch') =>
          build_proposal_loop_go max_txs_per_mempool_request builder_done rest
            ch' (log ++ [max_txs_per_mempool_request])

/-- `build_proposal_loop` (lines 151-186): run the race loop, then
unconditionally clear the active-proposal slot via
`active_proposal_finished` before returning the loop's result.  The output
is (loop result, final channel state, log of requested pull counts, slot
contents after the task ends). -/
def build_proposal_loop (max_txs_per_mempool_request : Nat)
    (builder_done : Bool) (pulls : List MempoolPull) (ch : ChannelState)
    (active_proposal : Option ProposalId) :
    ProposalsManagerResult Bool × ChannelState × List Nat × Option ProposalId :=
  match build_proposal_loop_go max_txs_per_mempool_request builder_done pulls
    ch [] with
  | (res, ch', log) => (res, ch', log, active_proposal_finished active_proposal)

/-- Arguments of the single `create_block_builder(tx_stream, output_content_sender)`
call (lines 132-134, trait at lines 246-252): the receive end of the freshly
created relay channel (identified here by its capacity) and the
caller-supplied output sender.  The factory signature has no height
parameter. -/
structure FactoryCall where
  input_stream_capacity : Nat
  output_content_sender : Nat
deriving DecidableEq, Repr

/-- Arguments captured by the spawned `build_proposal_loop` task
(lines 136-146): the per-pull bound and the deadline handed to the builder. -/
structure SpawnedLoop where
  max_txs_per_mempool_request : Nat
  deadline : Nat
deriving DecidableEq, Repr

/-- `generate_block_proposal` (lines 115-149): claim the slot via
`set_active_proposal` (propagating its error and leaving everything else
untouched); on success create the relay channel with capacity
`config.max_txs_per_mempool_request`, call the factory on the stream and the
output sender, and spawn the loop with the same bound and the deadline.
`_height` is received but never used (the parameter is named `_height` in
the source).  The third component records the factory call and spawned-task
arguments, `none` when the call failed before spawning. -/
def generate_block_proposal (m : ProposalsManager) (proposal_id : ProposalId)
    (deadline : Nat) (_height : Nat) (output_content_sender : Nat) :
    ProposalsManagerResult Unit × ProposalsManager ×
      Option (FactoryCall × SpawnedLoop) :=
  match set_active_proposal m.active_proposal proposal_id with
  | (Except.error e, slot) =>
      (Except.error e, { m with active_proposal := slot }, none)
  | (Except.ok _, slot) =>
      (Except.ok (),
       { m with active_proposal := slot },
       some ({ input_stream_capacity := m.config.max_txs_per_mempool_request,
               output_content_sender := output_content_sender },
             { max_txs_per_mempool_request :=
                 m.config.max_txs_per_mempool_request,
               deadline := deadline }))

/-! ### Helper lemmas on the channel and the race loop -/

/-- While the receiver stays alive, `sendAll` delivers the whole batch in
order, appending it to the sequence sent so far. -/
theorem sendAll_open (txs : List Transaction) :
    ∀ sent : List Transaction,
      sendAll ⟨sent, none⟩ txs = (Except.ok (), ⟨sent ++ txs, none⟩) := by
  induction txs with
  | nil => intro sent; simp [sendAll]
  | cons tx rest ih =>
      intro sent
      simp [sendAll, ChannelState.send, ih (sent ++ [tx])]

/-- When the receiver accepts exactly the first `pre.length` sends of a
longer batch and is then dropped, `sendAll` delivers exactly `pre`, fails
with `InternalError`, and never sends the remaining transactions. -/
theorem sendAll_closed (pre : List Transaction) :
    ∀ (sent : List Transaction) (t : Transaction) (post : List Transaction),
      sendAll ⟨sent, some pre.length⟩ (pre ++ t :: post) =
        (Except.error ProposalsManagerError.InternalError,
         ⟨sent ++ pre, some 0⟩) := by
  induction pre with
  | nil => intro sent t post; simp [sendAll, ChannelState.send]
  | cons p pre ih =>
      intro sent t post
      simp [sendAll, ChannelState.send, List.length_cons, ih (sent ++ [p]) t post]

/-- A prefix of feed steps whose mempool pulls all succeed and whose sends
all go through advances the loop state by the concatenation of the batches,
logging one request of `max` per step. -/
theorem build_proposal_loop_go_ok_prefix (max : Nat) (b : Bool)
    (Bs : List (List Transaction)) :
    ∀ (rest : List MempoolPull) (sent : List Transaction) (log : List Nat),
      build_proposal_loop_go max b
          (Bs.map (fun B => fun _ => Except.ok B) ++ rest) ⟨sent, none⟩ log =
        build_proposal_loop_go max b rest ⟨sent ++ Bs.flatten, none⟩
          (log ++ List.replicate Bs.length max) := by
  induction Bs with
  | nil => intro rest sent log; simp
  | cons B Bs ih =>
      intro rest sent log
      have step : build_proposal_loop_go max b
          (((fun _ => Except.ok B) : MempoolPull) ::
            (Bs.map (fun B => fun _ => Except.ok B) ++ rest))
          ⟨sent, none⟩ log =
        build_proposal_loop_go max b
          (Bs.map (fun B => fun _ => Except.ok B) ++ rest)
          ⟨sent ++ B, none⟩ (log ++ [max]) := by
        simp [build_proposal_loop_go, feed_more_mempool_txs, sendAll_open]
      rw [List.map_cons, List.cons_append, step,
        ih rest (sent ++ B) (log ++ [max])]
      simp [List.replicate_succ, List.append_assoc]

/-- If the race loop exits through the builder branch (result is `ok`), the
value is exactly the builder's boolean and the number of feed steps
performed is the number of scheduled pulls. -/
theorem build_proposal_loop_go_ok_inv (max : Nat) (b : Bool)
    (pulls : List MempoolPull) :
    ∀ (ch : ChannelState) (log : List Nat) (r : Bool),
      (build_proposal_loop_go max b pulls ch log).1 = Except.ok r →
      r = b ∧ (build_proposal_loop_go max b pulls ch log).2.2.length =
        log.length + pulls.length := by
  induction pulls with
  | nil =>
      intro ch log r h
      simp only [build_proposal_loop_go] at h ⊢
      exact ⟨by injection h with h; exact h.symm, rfl⟩
  | cons pull rest ih =>
      intro ch log r h
      rcases hfeed : feed_more_mempool_txs pull max ch with ⟨res, ch'⟩
      cases res with
      | error e =>
          simp only [build_proposal_loop_go, hfeed] at h
          exact absurd h (by simp)
      | ok u =>
          simp only [build_proposal_loop_go, hfeed] at h ⊢
          rcases ih ch' (log ++ [max]) r h with ⟨hr, hlen⟩
          refine ⟨hr, ?_⟩
          rw [hlen]
          simp only [List.length_append, List.length_cons, List.length_nil]
          omega

/-- Every count requested from the mempool by the loop equals the configured
`max` (each feed step logs exactly the bound it passed to `get_txs`). -/
theorem build_proposal_loop_go_log_bound (max : Nat) (b : Bool)
    (pulls : List MempoolPull) :
    ∀ (ch : ChannelState) (log : List Nat),
      (∀ r ∈ log, r = max) →
      ∀ r ∈ (build_proposal_loop_go max b pulls ch log).2.2, r = max := by
  induction pulls with
  | nil =>
      intro ch log hlog
      simpa [build_proposal_loop_go] using hlog
  | cons pull rest ih =>
      intro ch log hlog
      have hlog' : ∀ r ∈ log ++ [max], r = max := by
        intro r hr
        rcases List.mem_append.mp hr with h | h
        · exact hlog r h
        · simpa using h
      rcases hfeed : feed_more_mempool_txs pull max ch with ⟨res, ch'⟩
      cases res with
      | error e => simpa [build_proposal_loop_go, hfeed] using hlog'
      | ok u =>
          intro r hr
          simp only [build_proposal_loop_go, hfeed] at hr
          exact ih ch' (log ++ [max]) hlog' r hr

/-! ### Claim theorems -/

/-- C1: a call to `generate_block_proposal` made while the active-proposal
slot holds some id `C` fails with `AlreadyGeneratingProposal` carrying the
current id `C` and the requested id, the slot (and the whole manager state)
is unchanged, and no builder is created nor task spawned. -/
theorem generate_while_active_rejected (cfg : ProposalsManagerConfig)
    (C proposal_id deadline height out : Nat) :
    generate_block_proposal ⟨cfg, some C⟩ proposal_id deadline height out =
      (Except.error
        (ProposalsManagerError.AlreadyGeneratingProposal C proposal_id),
       ⟨cfg, some C⟩, none) := rfl

/-- C2: whatever the race loop's outcome (builder success with either
boolean, mempool failure, or relay failure), the active-proposal slot
component of `build_proposal_loop` is `none` on return, and a subsequent
claim for any id then succeeds. -/
theorem loop_always_clears_slot (max : Nat) (b : Bool)
    (pulls : List MempoolPull) (ch : ChannelState)
    (active : Option ProposalId) (next : ProposalId) :
    (build_proposal_loop max b pulls ch active).2.2.2 = none ∧
    set_active_proposal (build_proposal_loop max b pulls ch active).2.2.2 next =
      (Except.ok (), some next) := by
  rcases hgo : build_proposal_loop_go max b pulls ch [] with ⟨res, ch', log⟩
  simp [build_proposal_loop, hgo, active_proposal_finished, set_active_proposal]

/-- C3: when every scheduled mempool pull succeeds with batch `Bᵢ` and the
builder keeps reading, the sequence delivered into the relay channel is
exactly the concatenation `B₁ ++ B₂ ++ …` — in batch order, with no
reordering, duplication, or omission — and the loop ends with the builder's
result. -/
theorem loop_delivers_concatenation (max : Nat) (b : Bool)
    (Bs : List (List Transaction)) (active : Option ProposalId) :
    build_proposal_loop max b (Bs.map (fun B => fun _ => Except.ok B))
        ⟨[], none⟩ active =
      (Except.ok b, ⟨Bs.flatten, none⟩, List.replicate Bs.length max, none) := by
  have h := build_proposal_loop_go_ok_prefix max b Bs [] [] []
  simp only [List.append_nil] at h
  simp [build_proposal_loop, h, build_proposal_loop_go, active_proposal_finished]

/-- C4: if the loop exits through the builder branch (its result is `ok`),
the result is exactly the builder's boolean `b` and no feed step beyond the
scheduled ones is performed (one logged pull per scheduled step, nothing
more); by the result type the loop returns exactly once, with `ok` or an
error. -/
theorem loop_exits_with_builder_result (max : Nat) (b : Bool)
    (pulls : List MempoolPull) (ch : ChannelState) (active : Option ProposalId)
    (h : ∃ r, (build_proposal_loop max b pulls ch active).1 = Except.ok r) :
    (build_proposal_loop max b pulls ch active).1 = Except.ok b ∧
    (build_proposal_loop max b pulls ch active).2.2.1.length = pulls.length := by
  rcases h with ⟨r, hr⟩
  rcases hgo : build_proposal_loop_go max b pulls ch [] with ⟨res, ch', log⟩
  simp only [build_proposal_loop, hgo] at hr ⊢
  rcases build_proposal_loop_go_ok_inv max b pulls ch [] r
      (by rw [hgo]; exact hr) with ⟨hrb, hlen⟩
  subst hrb
  refine ⟨hr, ?_⟩
  rw [hgo] at hlen
  simpa using hlen

/-- C4 witness: a concrete run with one successful feed step where the
builder then completes with `true`. -/
theorem loop_exits_with_builder_result_witness :
    (build_proposal_loop 10 true [fun _ => Except.ok [1, 2]] ⟨[], none⟩
        (some 3)).1 = Except.ok true ∧
    (build_proposal_loop 10 true [fun _ => Except.ok [1, 2]] ⟨[], none⟩
        (some 3)).2.2.1.length = 1 :=
  loop_exits_with_builder_result 10 true [fun _ => Except.ok [1, 2]] ⟨[], none⟩
    (some 3) ⟨true, rfl⟩

/-- C5: when the mempool pull of some feed step fails with `e` after a run
of successful batches, the loop aborts immediately with
`MempoolError e` — that exact variant — no transaction of the failed pull is
relayed, later scheduled steps never run, and the slot is cleared. -/
theorem loop_aborts_on_mempool_error (max : Nat) (b : Bool)
    (Bs : List (List Transaction)) (e : MempoolClientError)
    (rest : List MempoolPull) (active : Option ProposalId) :
    build_proposal_loop max b
        (Bs.map (fun B => fun _ => Except.ok B) ++
          (fun _ => Except.error e) :: rest) ⟨[], none⟩ active =
      (Except.error (ProposalsManagerError.MempoolError e), ⟨Bs.flatten, none⟩,
       List.replicate (Bs.length + 1) max, none) := by
  have h := build_proposal_loop_go_ok_prefix max b Bs
    ((fun _ => Except.error e) :: rest) [] []
  simp only [List.nil_append] at h
  simp [build_proposal_loop, h, build_proposal_loop_go, feed_more_mempool_txs,
    active_proposal_finished, List.replicate_succ']

/-- C6: when the receiver side of the relay channel is dropped after
accepting the first `pre.length` transactions of a larger batch, the send
onto the channel fails, the feed step returns `InternalError`, the loop
aborts with that error, and the remaining transactions of the batch (`t`
and `post`) are never sent. -/
theorem loop_aborts_on_closed_channel (max : Nat) (b : Bool)
    (pre post : List Transaction) (t : Transaction) (rest : List MempoolPull)
    (sent : List Transaction) (active : Option ProposalId) :
    build_proposal_loop max b ((fun _ => Except.ok (pre ++ t :: post)) :: rest)
        ⟨sent, some pre.length⟩ active =
      (Except.error ProposalsManagerError.InternalError,
       ⟨sent ++ pre, some 0⟩, [max], none) := by
  simp [build_proposal_loop, build_proposal_loop_go, feed_more_mempool_txs,
    sendAll_closed pre sent t post, active_proposal_finished]

/-- C7 counterexample: two successful calls to `generate_block_proposal`
that differ only in `height` produce identical outcomes, including an
identical factory call — the constructed builder neither receives nor
depends on `height` (the source ignores its `_height` parameter and
`create_block_builder` takes only the stream and the output sender). -/
theorem generate_height_unused_counterexample :
    (generate_block_proposal (ProposalsManager.new ⟨10, 100⟩) 5 0 0 7).1 =
      Except.ok () ∧
    generate_block_proposal (ProposalsManager.new ⟨10, 100⟩) 5 0 0 7 =
      generate_block_proposal (ProposalsManager.new ⟨10, 100⟩) 5 0 99 7 :=
  ⟨rfl, rfl⟩

/-- C7 amended: `generate_block_proposal` accepts a height argument but
ignores it entirely — its outcome, including the factory call handed to the
Block Builder, is invariant under any change of height. -/
theorem generate_height_invariant (m : ProposalsManager)
    (proposal_id deadline h1 h2 out : Nat) :
    generate_block_proposal m proposal_id deadline h1 out =
      generate_block_proposal m proposal_id deadline h2 out := rfl

/-- C8 counterexample: a configuration with both options zero is accepted
unchanged by `ProposalsManager.new` — no positivity check rejects it. -/
theorem zero_config_accepted :
    ProposalsManager.new ⟨0, 0⟩ =
      { config := ⟨0, 0⟩, active_proposal := none } := rfl

/-- C8 amended: the component performs no validation of the configuration:
`ProposalsManager.new` stores any configuration verbatim, zero values
included; only the default configuration (10, 100) has both options
positive. -/
theorem config_not_validated :
    (∀ cfg : ProposalsManagerConfig,
      ProposalsManager.new cfg = { config := cfg, active_proposal := none }) ∧
    0 < ProposalsManagerConfig.default.max_txs_per_mempool_request ∧
    0 < ProposalsManagerConfig.default.outstream_content_buffer_size :=
  ⟨fun _ => rfl, by decide, by decide⟩

/-- C9: an accepted proposal creates its relay channel with capacity equal
to the configured `max_txs_per_mempool_request` (the same value the spawned
loop uses), and every mempool pull the feed step performs requests at most
(in fact exactly) that bound. -/
theorem relay_capacity_and_pull_bound (cfg : ProposalsManagerConfig)
    (proposal_id deadline height out : Nat) (b : Bool)
    (pulls : List MempoolPull) (ch : ChannelState)
    (active : Option ProposalId) :
    (generate_block_proposal ⟨cfg, none⟩ proposal_id deadline height out).2.2 =
      some (⟨cfg.max_txs_per_mempool_request, out⟩,
            ⟨cfg.max_txs_per_mempool_request, deadline⟩) ∧
    ∀ r ∈ (build_proposal_loop cfg.max_txs_per_mempool_request b pulls ch
        active).2.2.1, r ≤ cfg.max_txs_per_mempool_request := by
  refine ⟨rfl, ?_⟩
  intro r hr
  rcases hgo : build_proposal_loop_go cfg.max_txs_per_mempool_request b pulls
      ch [] with ⟨res, ch', log⟩
  simp only [build_proposal_loop, hgo] at hr
  have := build_proposal_loop_go_log_bound cfg.max_txs_per_mempool_request b
    pulls ch [] (by simp) r (by simp [hgo]; exact hr)
  omega

/-- C10: a claim carrying the same id `P` as the one already in the slot is
rejected too — the occupancy check never compares identifiers — failing
with `AlreadyGeneratingProposal` in which both ids are `P`, leaving the
state unchanged and spawning nothing. -/
theorem generate_same_id_rejected (cfg : ProposalsManagerConfig)
    (P deadline height out : Nat) :
    generate_block_proposal ⟨cfg, some P⟩ P deadline height out =
      (Except.error (ProposalsManagerError.AlreadyGeneratingProposal P P),
       ⟨cfg, some P⟩, none) := rfl

end Sequencer
